import Mathlib

/-!
Shallow embedding of the UPSC/PCS quiz generator.

The embedding covers the two source files:

* `utils.py` — the pydantic question models (`MCQQuestion`,
  `FillBlankQuestion`) with their `clean_question` pre-validators, and the
  `QuestionGenerator.generate_mcq` / `generate_fill_blank` retry
  orchestrators.  The LLM invocation plus output parsing is modelled as an
  oracle `String → Nat → LLMOutcome α` mapping (prompt, attempt index) to
  either a raised exception (transport or parse failure) or a parsed,
  typed candidate; the validation code inside each `try` block is
  translated literally.

* `main.py` — the `QuizManager` session logic: batch question generation
  with its all-or-nothing success flag, positional answer evaluation via
  `zip`/`enumerate`, the UI exposure gate, and the CSV export path
  computation.  Filesystem success and the wall-clock timestamp are
  parameters.

Python string primitives used by the code (`in`, `str.replace`,
`str.strip`, `str.lower`) are embedded as executable functions on
`List Char`.
-/

set_option autoImplicit false

namespace QuizGen

/-- Characters removed by Python `str.strip()` (ASCII whitespace; the
answers compared by the program are ASCII). -/
def py_isspace (c : Char) : Bool :=
  c = ' ' || c = '\t' || c = '\n' || c = '\r' || c = '\x0b' || c = '\x0c'

/-- Embedding of Python `str.strip()`: drop leading and trailing
whitespace. -/
def py_strip (s : String) : String :=
  (((s.toList.dropWhile py_isspace).reverse.dropWhile py_isspace).reverse).asString

/-- Embedding of Python `str.lower()` (ASCII case folding, which covers
every string the program compares). -/
def py_lower (s : String) : String :=
  (s.toList.map Char.toLower).asString

/-- Substring test on character lists: some suffix of `l` starts with
`pat`. -/
def list_contains_sub (pat : List Char) : List Char → Bool
  | [] => pat.isPrefixOf []
  | c :: rest => pat.isPrefixOf (c :: rest) || list_contains_sub pat rest

/-- Embedding of the Python membership test `pat in s` on strings. -/
def py_contains (s pat : String) : Bool :=
  list_contains_sub pat.toList s.toList

/-- Embedding of Python `str.replace(pat, repl)` on character lists for a
nonempty needle: every non-overlapping occurrence of `pat` is replaced,
scanning left to right.  Each step consumes at least one character, so a
fuel of the input length is enough; fuel keeps the recursion structural. -/
def py_replace_go (pat repl : List Char) : Nat → List Char → List Char
  | 0, l => l
  | _ + 1, [] => []
  | fuel + 1, c :: rest =>
    if pat.isPrefixOf (c :: rest) then
      repl ++ py_replace_go pat repl fuel (rest.drop (pat.length - 1))
    else
      c :: py_replace_go pat repl fuel rest

/-- Embedding of Python `str.replace(pat, repl)` on strings. -/
def py_replace (s pat repl : String) : String :=
  (py_replace_go pat.toList repl.toList s.toList.length s.toList).asString

/-- The pydantic model `MCQQuestion` from `utils.py` (typed fields, after
parsing succeeded). -/
structure MCQQuestion where
  question : String
  options : List String
  correct_answer : String
deriving Repr, DecidableEq

/-- The pydantic model `FillBlankQuestion` from `utils.py`. -/
structure FillBlankQuestion where
  question : String
  answer : String
deriving Repr, DecidableEq

mutual
/-- Untyped Python values as seen by the `clean_question` pre-validators:
the raw `question` field of a parsed response may be a string, a number,
or a nested dict. -/
inductive PyVal where
  | str : String → PyVal
  | int : Int → PyVal
  | dict : PyEntries → PyVal
deriving Repr

/-- Entries of a Python dict (keys are unique in Python; lookup takes the
first match). -/
inductive PyEntries where
  | nil : PyEntries
  | cons : String → PyVal → PyEntries → PyEntries
deriving Repr
end

mutual
/-- Python `repr` of an untyped value, used by `str()` on non-string
values (the fallback branch of `clean_question`). -/
def py_repr : PyVal → String
  | .str s => "\x27" ++ s ++ "\x27"
  | .int n => toString n
  | .dict es => "\x7b" ++ py_repr_entries es ++ "\x7d"

/-- Python `repr` of dict entries, comma separated. -/
def py_repr_entries : PyEntries → String
  | .nil => ""
  | .cons k v .nil => "\x27" ++ k ++ "\x27: " ++ py_repr v
  | .cons k v rest => "\x27" ++ k ++ "\x27: " ++ py_repr v ++ ", " ++ py_repr_entries rest
end

/-- Python `str()` of an untyped value. -/
def py_str : PyVal → String
  | .str s => s
  | v => py_repr v

/-- Python `dict.get(key, default)` without the default: first entry whose
key matches. -/
def py_dict_get : PyEntries → String → Option PyVal
  | .nil, _ => none
  | .cons k v rest, key => if k = key then some v else py_dict_get rest key

/-- Embedding of the pre-validator `MCQQuestion.clean_question` from
`utils.py`: a dict value yields its entry under the key `description`
(falling back to `str(v)` when absent); anything else is passed through
`str`. -/
def MCQQuestion.clean_question (v : PyVal) : PyVal :=
  match v with
  | .dict es =>
    match py_dict_get es "description" with
    | some w => w
    | none => .str (py_str (.dict es))
  | _ => .str (py_str v)

/-- Embedding of the pre-validator `FillBlankQuestion.clean_question` from
`utils.py`; its body is identical to the MCQ one. -/
def FillBlankQuestion.clean_question (v : PyVal) : PyVal :=
  match v with
  | .dict es =>
    match py_dict_get es "description" with
    | some w => w
    | none => .str (py_str (.dict es))
  | _ => .str (py_str v)

/-- Outcome of one LLM invocation plus output parsing for one attempt:
either a raised exception (network, quota, or parse failure), carrying the
exception text, or a parsed typed candidate. -/
inductive LLMOutcome (α : Type) where
  | failure : String → LLMOutcome α
  | parsed : α → LLMOutcome α
deriving Repr, DecidableEq

/-- The `max_attempts = 3` constant shared by both orchestrators in
`utils.py`. -/
def max_attempts : Nat := 3

/-- The MCQ prompt template of `generate_mcq`, formatted with the given
topic and difficulty exactly as `prompt.format` does. -/
def mcq_prompt (topic difficulty : String) : String :=
  "Generate a " ++ difficulty ++ " multiple-choice question about " ++ topic ++ ".\n\n" ++
  "Return ONLY a JSON object with these exact fields:\n" ++
  "- \x27question\x27: A clear, specific question\n" ++
  "- \x27options\x27: An array of exactly 4 possible answers\n" ++
  "- \x27correct_answer\x27: One of the options that is the correct answer\n\n" ++
  "Example format:\n" ++
  "\x7b\n" ++
  "    \"question\": \"What is the capital of France?\",\n" ++
  "    \"options\": [\"London\", \"Berlin\", \"Paris\", \"Madrid\"],\n" ++
  "    \"correct_answer\": \"Paris\"\n" ++
  "\x7d\n\n" ++
  "Your response:"

/-- The fill-in-the-blank prompt template of `generate_fill_blank`,
formatted with the given topic and difficulty. -/
def fill_blank_prompt (topic difficulty : String) : String :=
  "Generate a " ++ difficulty ++ " fill-in-the-blank question about " ++ topic ++ ".\n\n" ++
  "Return ONLY a JSON object with these exact fields:\n" ++
  "- \x27question\x27: A sentence with \x27_____\x27 marking where the blank should be\n" ++
  "- \x27answer\x27: The correct word or phrase that belongs in the blank\n\n" ++
  "Example format:\n" ++
  "\x7b\n" ++
  "    \"question\": \"The capital of France is _____.\",\n" ++
  "    \"answer\": \"Paris\"\n" ++
  "\x7d\n\n" ++
  "Your response:"

/-- The validation block inside the `try` of `generate_mcq`
(`utils.py` lines 96-101): empty question, wrong option count or empty
correct answer raise `Invalid question format`; a correct answer outside
the options raises `Correct answer not in options`; otherwise the parsed
response is returned unchanged. -/
def mcq_validate (q : MCQQuestion) : Except String MCQQuestion :=
  if q.question = "" ∨ q.options.length ≠ 4 ∨ q.correct_answer = "" then
    .error "Invalid question format"
  else if q.correct_answer ∉ q.options then
    .error "Correct answer not in options"
  else
    .ok q

/-- The validation block inside the `try` of `generate_fill_blank`
(`utils.py` lines 146-153): empty question or answer raises; if the
marker `_____` is absent the question is rewritten by
`question.replace("___", "_____")` and the marker is re-checked, raising
if it is still absent; the (possibly rewritten) response is returned. -/
def fill_blank_validate (q : FillBlankQuestion) : Except String FillBlankQuestion :=
  if q.question = "" ∨ q.answer = "" then
    .error "Invalid question format"
  else if py_contains q.question "_____" then
    .ok q
  else
    let rewritten : FillBlankQuestion := ⟨py_replace q.question "___" "_____", q.answer⟩
    if py_contains rewritten.question "_____" then
      .ok rewritten
    else
      .error "Question missing blank marker \x27_____\x27"

/-- One attempt of `generate_mcq`: invoke the LLM on the formatted prompt
and parse (the oracle), then validate.  An `Except.error` is a raised
exception inside the `try` block. -/
def mcq_attempt (oracle : String → Nat → LLMOutcome MCQQuestion)
    (prompt : String) (attempt : Nat) : Except String MCQQuestion :=
  match oracle prompt attempt with
  | .failure e => .error e
  | .parsed q => mcq_validate q

/-- One attempt of `generate_fill_blank`. -/
def fill_blank_attempt (oracle : String → Nat → LLMOutcome FillBlankQuestion)
    (prompt : String) (attempt : Nat) : Except String FillBlankQuestion :=
  match oracle prompt attempt with
  | .failure e => .error e
  | .parsed q => fill_blank_validate q

/-- Result of an orchestrator call, instrumented with the number of
attempts performed: `ok q k` means attempt `k` (1-based count) returned
`q`; `err msg k` means the call raised `RuntimeError msg` after `k`
attempts. -/
inductive GenResult (α : Type) where
  | ok : α → Nat → GenResult α
  | err : String → Nat → GenResult α
deriving Repr, DecidableEq

/-- The retry loop shared by both orchestrators
(`for attempt in range(max_attempts)`): run the attempt; on success
return immediately; on failure re-raise wrapped in `fail_msg` when this
was the last attempt, otherwise continue.  `attempt` is the current
0-based index, `remaining` the iterations left; the `remaining = 0` case
is Python falling off the loop, unreachable from the real entry point. -/
def retry_go {α : Type} (attempt_fn : Nat → Except String α)
    (fail_msg : String → String) : Nat → Nat → GenResult α
  | attempt, 0 => .err "loop exhausted without return" attempt
  | attempt, remaining + 1 =>
    match attempt_fn attempt with
    | .ok q => .ok q (attempt + 1)
    | .error e =>
      if attempt = max_attempts - 1 then
        .err (fail_msg e) (attempt + 1)
      else
        retry_go attempt_fn fail_msg (attempt + 1) remaining

/-- Embedding of `QuestionGenerator.generate_mcq` (`utils.py` lines
56-106) over an LLM-and-parser oracle. -/
def generate_mcq (topic difficulty : String)
    (oracle : String → Nat → LLMOutcome MCQQuestion) : GenResult MCQQuestion :=
  retry_go (mcq_attempt oracle (mcq_prompt topic difficulty))
    (fun e => "Failed to generate valid MCQ after " ++ toString max_attempts ++
      " attempts: " ++ e)
    0 max_attempts

/-- Embedding of `QuestionGenerator.generate_fill_blank` (`utils.py`
lines 108-158) over an LLM-and-parser oracle. -/
def generate_fill_blank (topic difficulty : String)
    (oracle : String → Nat → LLMOutcome FillBlankQuestion) : GenResult FillBlankQuestion :=
  retry_go (fill_blank_attempt oracle (fill_blank_prompt topic difficulty))
    (fun e => "Failed to generate valid fill-in-the-blank question after " ++
      toString max_attempts ++ " attempts: " ++ e)
    0 max_attempts

/-- A question held by `QuizManager.questions` in `main.py`: the dict
built in `generate_questions`, tagged with its type string. -/
inductive QuizQuestion where
  | mcq (question : String) (options : List String) (correct_answer : String)
  | fillBlank (question : String) (correct_answer : String)
deriving Repr, DecidableEq

/-- One result dict appended by `QuizManager.evaluate_quiz`
(`main.py` lines 75-94). -/
structure ResultRecord where
  question_number : Nat
  question : String
  question_type : String
  user_answer : String
  correct_answer : String
  options : List String
  is_correct : Bool
deriving Repr, DecidableEq

/-- The body of the evaluation loop for index `i` (0-based): MCQ answers
compare with `==` against the stored correct answer; fill-blank answers
compare after `strip().lower()` on both sides. -/
def evaluate_one (i : Nat) (q : QuizQuestion) (user_ans : String) : ResultRecord :=
  match q with
  | .mcq question options correct_answer =>
    { question_number := i + 1
      question := question
      question_type := "MCQ"
      user_answer := user_ans
      correct_answer := correct_answer
      options := options
      is_correct := user_ans == correct_answer }
  | .fillBlank question correct_answer =>
    { question_number := i + 1
      question := question
      question_type := "Fill in the Blank"
      user_answer := user_ans
      correct_answer := correct_answer
      options := []
      is_correct := py_lower (py_strip user_ans) == py_lower (py_strip correct_answer) }

/-- The loop `for i, (q, user_ans) in enumerate(zip(...))` of
`evaluate_quiz`, accumulating one result per positional pair, starting at
index `i`. -/
def evaluate_quiz_go (i : Nat) : List (QuizQuestion × String) → List ResultRecord
  | [] => []
  | (q, a) :: rest => evaluate_one i q a :: evaluate_quiz_go (i + 1) rest

/-- Embedding of `QuizManager.evaluate_quiz` (`main.py` lines 70-94):
results are reset, then recomputed over `zip(questions, user_answers)`. -/
def evaluate_quiz (questions : List QuizQuestion) (user_answers : List String) :
    List ResultRecord :=
  evaluate_quiz_go 0 (questions.zip user_answers)

/-- The generation loop of `QuizManager.generate_questions`
(`main.py` lines 22-46): `i` is the index of the next orchestrator call,
`n` the calls left, `acc` the questions appended so far.  `outcomes k` is
the result of the `k`-th orchestrator call: `Except.error` is a terminal
`RuntimeError`, which the surrounding `except` turns into `return False`
with the partial `acc` left in place. -/
def gen_loop (outcomes : Nat → Except String QuizQuestion) :
    Nat → Nat → List QuizQuestion → List QuizQuestion × Bool
  | _, 0, acc => (acc, true)
  | i, n + 1, acc =>
    match outcomes i with
    | .ok q => gen_loop outcomes (i + 1) n (acc ++ [q])
    | .error _ => (acc, false)

/-- The fields of a `QuizManager` instance. -/
structure QuizManagerState where
  questions : List QuizQuestion
  user_answers : List String
  results : List ResultRecord
deriving Repr, DecidableEq

/-- Embedding of `QuizManager.generate_questions`: all three lists are
reset, then the generation loop runs; the returned `Bool` is the
`True`/`False` success flag. -/
def generate_questions (outcomes : Nat → Except String QuizQuestion)
    (num_questions : Nat) : QuizManagerState × Bool :=
  let p := gen_loop outcomes 0 num_questions []
  ({ questions := p.1, user_answers := [], results := [] }, p.2)

/-- The streamlit session state of `main()`: the manager instance plus
the `quiz_generated` and `quiz_submitted` flags. -/
structure SessionState where
  manager : QuizManagerState
  quiz_generated : Bool
  quiz_submitted : Bool
deriving Repr, DecidableEq

/-- The `Generate Quiz` button handler (`main.py` lines 186-192):
`quiz_submitted` is cleared, then `quiz_generated` is set to the return
value of `generate_questions` (which replaces the manager lists
wholesale, so the previous session contents do not matter). -/
def handle_generate (outcomes : Nat → Except String QuizQuestion)
    (num_questions : Nat) : SessionState :=
  let p := generate_questions outcomes num_questions
  { manager := p.1, quiz_generated := p.2, quiz_submitted := false }

/-- The quiz exposure gate of `main.py` line 195
(`if st.session_state.quiz_generated and st.session_state.quiz_manager.questions:`):
the questions rendered to the user, empty when the gate is closed. -/
def exposed_questions (s : SessionState) : List QuizQuestion :=
  if s.quiz_generated && !s.manager.questions.isEmpty then s.manager.questions
  else []

/-- Embedding of `QuizManager.save_to_csv` (`main.py` lines 102-130).
The wall clock is the `timestamp` parameter (the `strftime` result) and
filesystem success is `write_ok`; the function returns the path of the
file produced, or `none` when there are no results or the write raised.
The `filename` parameter of the source is kept, unused exactly as there. -/
def save_to_csv (results : List ResultRecord) (filename : String)
    (timestamp : String) (write_ok : Bool) : Option String :=
  if results.isEmpty then none
  else
    let unique_filename := "quiz_results_" ++ timestamp ++ ".csv"
    let full_path := "results" ++ "/" ++ unique_filename
    if write_ok then some full_path else none

/-! ## Helper lemmas -/

/-- String append is associative (strings are character lists). -/
theorem string_append_assoc (a b c : String) : a ++ b ++ c = a ++ (b ++ c) := by
  rcases a with ⟨la⟩; rcases b with ⟨lb⟩; rcases c with ⟨lc⟩
  show String.mk (la ++ lb ++ lc) = String.mk (la ++ (lb ++ lc))
  rw [List.append_assoc]

/-- A list that starts with `pat` contains `pat` as a substring. -/
theorem contains_of_isPrefixOf (pat l : List Char) (h : pat.isPrefixOf l = true) :
    list_contains_sub pat l = true := by
  cases l with
  | nil => exact h
  | cons c rest => simp [list_contains_sub, h]

/-- A list is a prefix of itself followed by anything. -/
theorem isPrefixOf_append_self (l z : List Char) : l.isPrefixOf (l ++ z) = true := by
  induction l with
  | nil => simp [List.isPrefixOf]
  | cons c rest ih => simp [List.isPrefixOf, ih]

/-- If the needle occurs in the input, the replacement occurs in the
output of `py_replace_go` (the replacement is emitted verbatim at the
first match site). -/
theorem contains_after_replace (pat repl : List Char) (hp : pat ≠ []) :
    ∀ (fuel : Nat) (l : List Char), l.length ≤ fuel →
      list_contains_sub pat l = true →
      list_contains_sub repl (py_replace_go pat repl fuel l) = true := by
  intro fuel
  induction fuel with
  | zero =>
    intro l hl h
    have hnil : l = [] := List.eq_nil_of_length_eq_zero (Nat.le_zero.mp hl)
    subst hnil
    cases pat with
    | nil => exact absurd rfl hp
    | cons c cs => simp [list_contains_sub, List.isPrefixOf] at h
  | succ n ih =>
    intro l hl h
    cases l with
    | nil =>
      cases pat with
      | nil => exact absurd rfl hp
      | cons c cs => simp [list_contains_sub, List.isPrefixOf] at h
    | cons c rest =>
      by_cases hpre : pat.isPrefixOf (c :: rest) = true
      · simp only [py_replace_go, if_pos hpre]
        exact contains_of_isPrefixOf repl _ (isPrefixOf_append_self repl _)
      · have h2 : list_contains_sub pat rest = true := by
          simp only [list_contains_sub, Bool.or_eq_true] at h
          rcases h with h | h
          · exact absurd h hpre
          · exact h
        simp only [py_replace_go, if_neg hpre]
        have hlen : rest.length ≤ n := by
          simp only [List.length_cons] at hl
          omega
        have := ih rest hlen h2
        simp [list_contains_sub, this]

/-- If a question contains the weak marker, the rewritten question of the
fill-blank validator contains the strong marker. -/
theorem fill_blank_contains_after_rewrite (s : String)
    (h : py_contains s "___" = true) :
    py_contains (py_replace s "___" "_____") "_____" = true := by
  show list_contains_sub "_____".toList
    (py_replace_go "___".toList "_____".toList s.toList.length s.toList) = true
  exact contains_after_replace "___".toList "_____".toList (by decide)
    s.toList.length s.toList le_rfl h

/-- One unfolding of the retry loop when the current attempt raises. -/
theorem retry_go_step_error {α : Type} (f : Nat → Except String α) (msg : String → String)
    (a n : Nat) (e : String) (he : f a = Except.error e) :
    retry_go f msg a (n + 1) =
      if a = max_attempts - 1 then GenResult.err (msg e) (a + 1)
      else retry_go f msg (a + 1) n := by
  simp only [retry_go, he]

/-- One unfolding of the retry loop when the current attempt succeeds. -/
theorem retry_go_step_ok {α : Type} (f : Nat → Except String α) (msg : String → String)
    (a n : Nat) (q : α) (hq : f a = Except.ok q) :
    retry_go f msg a (n + 1) = GenResult.ok q (a + 1) := by
  simp only [retry_go, hq]

/-- The retry loop fails after exactly `max_attempts` attempts when every
attempt in range raises, and the terminal message wraps the last cause. -/
theorem retry_go_all_fail {α : Type} (f : Nat → Except String α) (msg : String → String) :
    ∀ (r a : Nat), a + r = max_attempts → 0 < r →
      (∀ i, a ≤ i → i < max_attempts → ∃ e, f i = Except.error e) →
      ∃ e, retry_go f msg a r = GenResult.err (msg e) max_attempts := by
  intro r
  induction r with
  | zero => intro a _ h2 _; omega
  | succ n ih =>
    intro a hsum _ hfail
    obtain ⟨e, he⟩ := hfail a le_rfl (by omega)
    by_cases hlast : a = max_attempts - 1
    · have ha : a + 1 = max_attempts := by
        have hm : max_attempts = 3 := rfl
        omega
      refine ⟨e, ?_⟩
      rw [retry_go_step_error f msg a n e he, if_pos hlast, ha]
    · have hn : 0 < n := by
        have hm : max_attempts = 3 := rfl
        omega
      obtain ⟨e2, he2⟩ := ih (a + 1) (by omega) hn (fun i h1 h2 => hfail i (by omega) h2)
      refine ⟨e2, ?_⟩
      rw [retry_go_step_error f msg a n e he, if_neg hlast]
      exact he2

/-- The retry loop stops at the first successful attempt and returns its
value, having performed exactly that attempt count. -/
theorem retry_go_first_success {α : Type} (f : Nat → Except String α) (msg : String → String) :
    ∀ (r a k : Nat) (q : α), a + r = max_attempts → a ≤ k → k < max_attempts →
      (∀ i, a ≤ i → i < k → ∃ e, f i = Except.error e) →
      f k = Except.ok q →
      retry_go f msg a r = GenResult.ok q (k + 1) := by
  intro r
  induction r with
  | zero => intro a k q h1 h2 h3 _ _; omega
  | succ n ih =>
    intro a k q hsum hak hk hfail hok
    rcases Nat.eq_or_lt_of_le hak with heq | hlt
    · subst heq
      exact retry_go_step_ok f msg a n q hok
    · obtain ⟨e, he⟩ := hfail a le_rfl hlt
      have hlast : a ≠ max_attempts - 1 := by
        have hm : max_attempts = 3 := rfl
        omega
      rw [retry_go_step_error f msg a n e he, if_neg hlast]
      exact ih (a + 1) k q (by omega) hlt hk (fun i h1 h2 => hfail i (by omega) h2) hok

/-- A successful retry-loop result comes from a successful attempt. -/
theorem retry_go_ok_inv {α : Type} (f : Nat → Except String α) (msg : String → String) :
    ∀ (r a k : Nat) (q : α), retry_go f msg a r = GenResult.ok q k →
      ∃ i, f i = Except.ok q := by
  intro r
  induction r with
  | zero => intro a k q h; simp [retry_go] at h
  | succ n ih =>
    intro a k q h
    cases hf : f a with
    | ok q2 =>
      rw [retry_go_step_ok f msg a n q2 hf] at h
      simp only [GenResult.ok.injEq] at h
      exact ⟨a, by rw [hf, h.1]⟩
    | error e =>
      rw [retry_go_step_error f msg a n e hf] at h
      by_cases hlast : a = max_attempts - 1
      · rw [if_pos hlast] at h
        simp at h
      · rw [if_neg hlast] at h
        exact ih (a + 1) k q h

/-- The exact result of the retry loop when all three attempts raise,
with the causes given. -/
theorem retry_go_three_errors {α : Type} (f : Nat → Except String α) (msg : String → String)
    (e0 e1 e2 : String) (h0 : f 0 = Except.error e0) (h1 : f 1 = Except.error e1)
    (h2 : f 2 = Except.error e2) :
    retry_go f msg 0 max_attempts = GenResult.err (msg e2) max_attempts := by
  have hm : max_attempts = 3 := rfl
  rw [hm, show (3 : Nat) = 2 + 1 from rfl,
    retry_go_step_error f msg 0 2 e0 h0, if_neg (by decide),
    retry_go_step_error f msg 1 1 e1 h1, if_neg (by decide),
    retry_go_step_error f msg 2 0 e2 h2, if_pos (by decide)]

/-- Inversion of the MCQ validation block: a returned question is the
parsed candidate itself and satisfies every check. -/
theorem mcq_validate_ok_inv (q0 q : MCQQuestion) (h : mcq_validate q0 = Except.ok q) :
    q = q0 ∧ q.question ≠ "" ∧ q.options.length = 4 ∧ q.correct_answer ≠ "" ∧
      q.correct_answer ∈ q.options := by
  unfold mcq_validate at h
  split at h
  · exact absurd h (by simp)
  · split at h
    next hc hc2 =>
      exact absurd h (by simp)
    next hc hc2 =>
      have hq : q0 = q := by simpa using h
      push_neg at hc
      subst hq
      exact ⟨rfl, hc.1, hc.2.1, hc.2.2, not_not.mp hc2⟩

/-- Introduction for the MCQ validation block: a candidate passing every
check is returned unchanged. -/
theorem mcq_validate_ok_of (q : MCQQuestion) (h1 : q.question ≠ "")
    (h2 : q.options.length = 4) (h3 : q.correct_answer ≠ "")
    (h4 : q.correct_answer ∈ q.options) :
    mcq_validate q = Except.ok q := by
  unfold mcq_validate
  have hA : ¬(q.question = "" ∨ q.options.length ≠ 4 ∨ q.correct_answer = "") := by
    push_neg
    exact ⟨h1, h2, h3⟩
  have hB : ¬q.correct_answer ∉ q.options := not_not_intro h4
  rw [if_neg hA, if_neg hB]

/-- The generation loop reports failure whenever some orchestrator call
in range raises terminally. -/
theorem gen_loop_fails (outcomes : Nat → Except String QuizQuestion) :
    ∀ (n i : Nat) (acc : List QuizQuestion) (k : Nat) (e : String),
      i ≤ k → k < i + n → outcomes k = Except.error e →
      (gen_loop outcomes i n acc).2 = false := by
  intro n
  induction n with
  | zero => intro i acc k e h1 h2 _; omega
  | succ m ih =>
    intro i acc k e h1 h2 he
    cases ho : outcomes i with
    | error e2 => simp [gen_loop, ho]
    | ok q =>
      have hik : i ≠ k := by
        intro hh
        subst hh
        rw [ho] at he
        simp at he
      simp only [gen_loop, ho]
      exact ih (i + 1) (acc ++ [q]) k e (by omega) (by omega) he

/-- Length of the evaluation loop output equals the number of pairs. -/
theorem evaluate_quiz_go_length :
    ∀ (ps : List (QuizQuestion × String)) (i : Nat),
      (evaluate_quiz_go i ps).length = ps.length := by
  intro ps
  induction ps with
  | nil => intro i; rfl
  | cons p rest ih =>
    intro i
    obtain ⟨q, a⟩ := p
    simp [evaluate_quiz_go, ih]

/-- Elementwise description of the evaluation loop output. -/
theorem evaluate_quiz_go_get? :
    ∀ (ps : List (QuizQuestion × String)) (j i : Nat) (q : QuizQuestion) (a : String),
      ps.get? j = some (q, a) →
      (evaluate_quiz_go i ps).get? j = some (evaluate_one (i + j) q a) := by
  intro ps
  induction ps with
  | nil => intro j i q a h; simp at h
  | cons p rest ih =>
    intro j i q a h
    obtain ⟨q0, a0⟩ := p
    cases j with
    | zero =>
      simp only [List.get?] at h
      have hp : (q0, a0) = (q, a) := by simpa using h
      simp only [Prod.mk.injEq] at hp
      obtain ⟨hq, ha⟩ := hp
      subst hq; subst ha
      simp [evaluate_quiz_go]
    | succ m =>
      simp only [List.get?] at h
      have := ih m (i + 1) q a h
      have harith : i + 1 + m = i + (m + 1) := by omega
      simpa [evaluate_quiz_go, harith] using this

/-! ## Claim theorems -/

/-- C1: for every (topic, difficulty) input, if every one of the three
attempts of `generate_mcq` / `generate_fill_blank` fails (LLM transport
error, parse failure, or validation failure), exactly 3 attempts are
performed and a terminal failure is raised; if the first successful
attempt is attempt `k+1` (0-based index `k`), exactly `k+1` attempts
occur and its valid result is returned immediately. -/
theorem c1_retry_bound :
    ∀ (topic difficulty : String)
      (omcq : String → Nat → LLMOutcome MCQQuestion)
      (ofb : String → Nat → LLMOutcome FillBlankQuestion),
      ((∀ i, i < max_attempts →
          ∃ e, mcq_attempt omcq (mcq_prompt topic difficulty) i = Except.error e) →
        ∃ msg, generate_mcq topic difficulty omcq = GenResult.err msg max_attempts)
    ∧ (∀ k q, k < max_attempts →
        (∀ i, i < k →
          ∃ e, mcq_attempt omcq (mcq_prompt topic difficulty) i = Except.error e) →
        mcq_attempt omcq (mcq_prompt topic difficulty) k = Except.ok q →
        generate_mcq topic difficulty omcq = GenResult.ok q (k + 1))
    ∧ ((∀ i, i < max_attempts →
          ∃ e, fill_blank_attempt ofb (fill_blank_prompt topic difficulty) i = Except.error e) →
        ∃ msg, generate_fill_blank topic difficulty ofb = GenResult.err msg max_attempts)
    ∧ (∀ k q, k < max_attempts →
        (∀ i, i < k →
          ∃ e, fill_blank_attempt ofb (fill_blank_prompt topic difficulty) i = Except.error e) →
        fill_blank_attempt ofb (fill_blank_prompt topic difficulty) k = Except.ok q →
        generate_fill_blank topic difficulty ofb = GenResult.ok q (k + 1)) := by
  intro topic difficulty omcq ofb
  refine ⟨?_, ?_, ?_, ?_⟩
  · intro h
    obtain ⟨e, he⟩ := retry_go_all_fail (mcq_attempt omcq (mcq_prompt topic difficulty))
      (fun e => "Failed to generate valid MCQ after " ++ toString max_attempts ++
        " attempts: " ++ e)
      max_attempts 0 (Nat.zero_add _) (by decide) (fun i _ h2 => h i h2)
    exact ⟨_, he⟩
  · intro k q hk hfail hok
    exact retry_go_first_success _ _ max_attempts 0 k q (Nat.zero_add _)
      (Nat.zero_le k) hk (fun i _ h2 => hfail i h2) hok
  · intro h
    obtain ⟨e, he⟩ := retry_go_all_fail (fill_blank_attempt ofb (fill_blank_prompt topic difficulty))
      (fun e => "Failed to generate valid fill-in-the-blank question after " ++
        toString max_attempts ++ " attempts: " ++ e)
      max_attempts 0 (Nat.zero_add _) (by decide) (fun i _ h2 => h i h2)
    exact ⟨_, he⟩
  · intro k q hk hfail hok
    exact retry_go_first_success _ _ max_attempts 0 k q (Nat.zero_add _)
      (Nat.zero_le k) hk (fun i _ h2 => hfail i h2) hok

/-- Witness for C1: an oracle that always raises makes `generate_mcq`
fail terminally after exactly 3 attempts. -/
theorem c1_retry_bound_witness :
    ∃ msg, generate_mcq "Geography" "medium"
      (fun _ _ => LLMOutcome.failure "network error") =
      GenResult.err msg max_attempts := by
  refine (c1_retry_bound "Geography" "medium"
    (fun _ _ => LLMOutcome.failure "network error")
    (fun _ _ => LLMOutcome.failure "network error")).1 ?_
  intro i _
  exact ⟨"network error", rfl⟩

/-- C2: every `MCQQuestion` successfully returned by `generate_mcq` has a
non-empty question, exactly 4 options, and a correct answer that is one
of the options. -/
theorem c2_mcq_validity (topic difficulty : String)
    (oracle : String → Nat → LLMOutcome MCQQuestion) (q : MCQQuestion) (k : Nat)
    (h : generate_mcq topic difficulty oracle = GenResult.ok q k) :
    q.question ≠ "" ∧ q.options.length = 4 ∧ q.correct_answer ∈ q.options := by
  obtain ⟨i, hi⟩ := retry_go_ok_inv (mcq_attempt oracle (mcq_prompt topic difficulty))
    _ max_attempts 0 k q h
  unfold mcq_attempt at hi
  cases ho : oracle (mcq_prompt topic difficulty) i with
  | failure e => rw [ho] at hi; simp at hi
  | parsed q0 =>
    rw [ho] at hi
    obtain ⟨_, h1, h2, _, h4⟩ := mcq_validate_ok_inv q0 q hi
    exact ⟨h1, h2, h4⟩

/-- Witness for C2: a concrete successful generation, with the three
properties evaluated on its result. -/
theorem c2_mcq_validity_witness :
    ("What is the capital of France?" : String) ≠ "" ∧
    (["London", "Berlin", "Paris", "Madrid"] : List String).length = 4 ∧
    "Paris" ∈ (["London", "Berlin", "Paris", "Madrid"] : List String) :=
  c2_mcq_validity "Geography" "easy"
    (fun _ _ => LLMOutcome.parsed
      ⟨"What is the capital of France?", ["London", "Berlin", "Paris", "Madrid"], "Paris"⟩)
    ⟨"What is the capital of France?", ["London", "Berlin", "Paris", "Madrid"], "Paris"⟩
    1 (by rfl)

/-- C3 counterexample: `generate_mcq` accepts and returns a candidate
whose options contain a duplicate, so accepted questions need not have
pairwise-distinct options and duplicate-carrying candidates are not
rejected by validation. -/
theorem c3_counterexample :
    generate_mcq "Indian History" "easy"
      (fun _ _ => LLMOutcome.parsed
        ⟨"Which letter comes first?", ["A", "A", "B", "C"], "A"⟩) =
      GenResult.ok ⟨"Which letter comes first?", ["A", "A", "B", "C"], "A"⟩ 1 ∧
    ¬ (["A", "A", "B", "C"] : List String).Nodup := by
  refine ⟨rfl, by decide⟩

/-- C3 amended: validation checks only that the question is non-empty,
that there are exactly 4 options, and that the (non-empty) correct answer
is among them; option uniqueness is never checked, so any candidate
meeting those checks — duplicates included — is accepted and returned on
its first attempt. -/
theorem c3_amended_no_uniqueness_check (topic difficulty : String) (q : MCQQuestion)
    (h1 : q.question ≠ "") (h2 : q.options.length = 4) (h3 : q.correct_answer ≠ "")
    (h4 : q.correct_answer ∈ q.options) :
    generate_mcq topic difficulty (fun _ _ => LLMOutcome.parsed q) = GenResult.ok q 1 := by
  have hat : mcq_attempt (fun _ _ => LLMOutcome.parsed q) (mcq_prompt topic difficulty) 0 =
      Except.ok q := by
    unfold mcq_attempt
    exact mcq_validate_ok_of q h1 h2 h3 h4
  exact retry_go_first_success _ _ max_attempts 0 0 q (Nat.zero_add _) le_rfl
    (by decide) (fun i h1 h2 => absurd h2 (by omega)) hat

/-- Witness for C3 amended: a duplicate-option candidate passing the
checked conditions is returned. -/
theorem c3_amended_witness :
    generate_mcq "Polity" "hard"
      (fun _ _ => LLMOutcome.parsed ⟨"Pick one.", ["X", "X", "Y", "Z"], "Y"⟩) =
      GenResult.ok ⟨"Pick one.", ["X", "X", "Y", "Z"], "Y"⟩ 1 :=
  c3_amended_no_uniqueness_check "Polity" "hard"
    ⟨"Pick one.", ["X", "X", "Y", "Z"], "Y"⟩
    (by decide) (by decide) (by decide) (by decide)

/-- C4 counterexample: on a question containing two occurrences of
`___` and no `_____`, the normalization of `generate_fill_blank`
replaces both occurrences (Python `str.replace` replaces every
occurrence), not only the first one as claimed. -/
theorem c4_counterexample :
    fill_blank_validate ⟨"A ___ B ___ C", "x"⟩ =
      Except.ok ⟨"A _____ B _____ C", "x"⟩ ∧
    py_replace "A ___ B ___ C" "___" "_____" ≠ "A _____ B ___ C" := by
  refine ⟨rfl, by decide⟩

/-- C4 amended: for a parsed fill-blank candidate with non-empty fields
whose question lacks `_____` but contains `___`, the normalization
replaces every (non-overlapping, left-to-right) occurrence of `___` with
`_____`, after which the marker check necessarily passes and the
rewritten candidate is returned by the validation step. -/
theorem c4_amended_blank_normalization (q : FillBlankQuestion)
    (h1 : q.question ≠ "") (h2 : q.answer ≠ "")
    (h3 : py_contains q.question "_____" = false)
    (h4 : py_contains q.question "___" = true) :
    fill_blank_validate q =
      Except.ok ⟨py_replace q.question "___" "_____", q.answer⟩ := by
  unfold fill_blank_validate
  rw [if_neg (by push_neg; exact ⟨h1, h2⟩)]
  rw [if_neg (by simp [h3])]
  rw [if_pos]
  exact fill_blank_contains_after_rewrite q.question h4

/-- Witness for C4 amended: the spec example question is rewritten and
accepted. -/
theorem c4_amended_witness :
    fill_blank_validate ⟨"The sky is ___ today.", "blue"⟩ =
      Except.ok ⟨py_replace "The sky is ___ today." "___" "_____", "blue"⟩ :=
  c4_amended_blank_normalization ⟨"The sky is ___ today.", "blue"⟩
    (by decide) (by decide) (by decide) (by decide)

/-- C5: if any orchestrator call of a batch fails terminally, the
`Generate Quiz` handler leaves the session with the generated flag and
the submitted flag cleared, so the exposure gate of `main.py` line 195
renders no questions: the session behaves as Empty and none of the
questions generated earlier in the batch is exposed. -/
theorem c5_failed_batch_not_exposed (outcomes : Nat → Except String QuizQuestion)
    (n k : Nat) (e : String) (hk : k < n) (he : outcomes k = Except.error e) :
    (handle_generate outcomes n).quiz_generated = false ∧
    (handle_generate outcomes n).quiz_submitted = false ∧
    exposed_questions (handle_generate outcomes n) = [] := by
  have hflag : (gen_loop outcomes 0 n []).2 = false :=
    gen_loop_fails outcomes n 0 [] k e (Nat.zero_le k) (by omega) he
  refine ⟨?_, rfl, ?_⟩
  · simp [handle_generate, generate_questions, hflag]
  · simp [exposed_questions, handle_generate, generate_questions, hflag]

/-- Witness for C5: a batch of 3 whose second call fails exposes
nothing. -/
theorem c5_failed_batch_not_exposed_witness :
    (handle_generate
      (fun i => if i = 0 then Except.ok (QuizQuestion.fillBlank "The capital is _____." "Delhi")
        else Except.error "Failed to generate valid MCQ after 3 attempts: boom") 3).quiz_generated
      = false ∧
    (handle_generate
      (fun i => if i = 0 then Except.ok (QuizQuestion.fillBlank "The capital is _____." "Delhi")
        else Except.error "Failed to generate valid MCQ after 3 attempts: boom") 3).quiz_submitted
      = false ∧
    exposed_questions (handle_generate
      (fun i => if i = 0 then Except.ok (QuizQuestion.fillBlank "The capital is _____." "Delhi")
        else Except.error "Failed to generate valid MCQ after 3 attempts: boom") 3) = [] :=
  c5_failed_batch_not_exposed
    (fun i => if i = 0 then Except.ok (QuizQuestion.fillBlank "The capital is _____." "Delhi")
      else Except.error "Failed to generate valid MCQ after 3 attempts: boom")
    3 1 "Failed to generate valid MCQ after 3 attempts: boom" (by decide) rfl

/-- C6: fill-blank evaluation marks an answer correct exactly when user
answer and stored answer agree after stripping surrounding whitespace and
lowercasing (so " Paris " and "paris" match "Paris" while "Pariss" does
not), and MCQ evaluation marks an answer correct exactly when it equals
the stored `correct_answer` string verbatim. -/
theorem c6_answer_matching :
    (∀ (i : Nat) (question : String) (options : List String) (correct ua : String),
      (evaluate_one i (QuizQuestion.mcq question options correct) ua).is_correct = true ↔
        ua = correct)
  ∧ (∀ (i : Nat) (question correct ua : String),
      (evaluate_one i (QuizQuestion.fillBlank question correct) ua).is_correct = true ↔
        py_lower (py_strip ua) = py_lower (py_strip correct))
  ∧ (evaluate_one 0 (QuizQuestion.fillBlank "The capital of France is _____." "Paris")
      " Paris ").is_correct = true
  ∧ (evaluate_one 0 (QuizQuestion.fillBlank "The capital of France is _____." "Paris")
      "paris").is_correct = true
  ∧ (evaluate_one 0 (QuizQuestion.fillBlank "The capital of France is _____." "Paris")
      "Pariss").is_correct = false := by
  refine ⟨?_, ?_, ?_, ?_, ?_⟩
  · intro i question options correct ua
    simp [evaluate_one]
  · intro i question correct ua
    simp [evaluate_one]
  · decide
  · decide
  · decide

/-- Witness for C6: the case-sensitive MCQ comparison at a concrete
input. -/
theorem c6_answer_matching_witness :
    (evaluate_one 0 (QuizQuestion.mcq "Q?" ["Paris", "Berlin"] "Paris") "Paris").is_correct
      = true :=
  (c6_answer_matching.1 0 "Q?" ["Paris", "Berlin"] "Paris" "Paris").mpr rfl

/-- C7 counterexample: after exhausting all attempts on topic
"Geography", the terminal error message of `generate_mcq` names the
kind, the attempt count and the last cause, but contains no occurrence
of the topic. -/
theorem c7_counterexample :
    generate_mcq "Geography" "medium" (fun _ _ => LLMOutcome.failure "boom") =
      GenResult.err "Failed to generate valid MCQ after 3 attempts: boom" 3 ∧
    py_contains "Failed to generate valid MCQ after 3 attempts: boom" "Geography" = false := by
  refine ⟨rfl, by decide⟩

/-- C7 amended: when all retry attempts are exhausted, the terminal
error of each orchestrator is built from a fixed template naming the
question kind and the attempt count and ending with the underlying cause
of the last failure; the topic does not occur in the template. -/
theorem c7_amended_terminal_error_message (topic difficulty : String)
    (omcq : String → Nat → LLMOutcome MCQQuestion)
    (ofb : String → Nat → LLMOutcome FillBlankQuestion)
    (em0 em1 em2 ef0 ef1 ef2 : String)
    (hm0 : mcq_attempt omcq (mcq_prompt topic difficulty) 0 = Except.error em0)
    (hm1 : mcq_attempt omcq (mcq_prompt topic difficulty) 1 = Except.error em1)
    (hm2 : mcq_attempt omcq (mcq_prompt topic difficulty) 2 = Except.error em2)
    (hf0 : fill_blank_attempt ofb (fill_blank_prompt topic difficulty) 0 = Except.error ef0)
    (hf1 : fill_blank_attempt ofb (fill_blank_prompt topic difficulty) 1 = Except.error ef1)
    (hf2 : fill_blank_attempt ofb (fill_blank_prompt topic difficulty) 2 = Except.error ef2) :
    generate_mcq topic difficulty omcq =
      GenResult.err ("Failed to generate valid MCQ after 3 attempts: " ++ em2) 3 ∧
    generate_fill_blank topic difficulty ofb =
      GenResult.err
        ("Failed to generate valid fill-in-the-blank question after 3 attempts: " ++ ef2) 3 := by
  constructor
  · exact retry_go_three_errors (mcq_attempt omcq (mcq_prompt topic difficulty))
      _ em0 em1 em2 hm0 hm1 hm2
  · exact retry_go_three_errors (fill_blank_attempt ofb (fill_blank_prompt topic difficulty))
      _ ef0 ef1 ef2 hf0 hf1 hf2

/-- Witness for C7 amended: both orchestrators at an always-failing
oracle. -/
theorem c7_amended_witness :
    generate_mcq "Indian Geography" "hard" (fun _ _ => LLMOutcome.failure "quota") =
      GenResult.err "Failed to generate valid MCQ after 3 attempts: quota" 3 ∧
    generate_fill_blank "Indian Geography" "hard" (fun _ _ => LLMOutcome.failure "quota") =
      GenResult.err
        "Failed to generate valid fill-in-the-blank question after 3 attempts: quota" 3 :=
  c7_amended_terminal_error_message "Indian Geography" "hard"
    (fun _ _ => LLMOutcome.failure "quota") (fun _ _ => LLMOutcome.failure "quota")
    "quota" "quota" "quota" "quota" "quota" "quota"
    rfl rfl rfl rfl rfl rfl

/-- C8: evaluation pairs questions and answers positionally and produces
exactly one record per index below the minimum of the two lengths,
pairing question `i` with answer `i`, and nothing beyond. -/
theorem c8_prefix_evaluation (questions : List QuizQuestion) (user_answers : List String) :
    (evaluate_quiz questions user_answers).length =
      min questions.length user_answers.length ∧
    ∀ (i : Nat) (q : QuizQuestion) (a : String),
      questions.get? i = some q → user_answers.get? i = some a →
      (evaluate_quiz questions user_answers).get? i = some (evaluate_one i q a) := by
  constructor
  · rw [evaluate_quiz, evaluate_quiz_go_length, List.length_zip]
  · intro i q a h1 h2
    have hz : (questions.zip user_answers).get? i = some (q, a) :=
      (List.get?_zip_eq_some questions user_answers (q, a) i).mpr ⟨h1, h2⟩
    have := evaluate_quiz_go_get? (questions.zip user_answers) i 0 q a hz
    simpa [evaluate_quiz] using this

/-- Witness for C8: two questions against a single answer evaluate to a
single record pairing index 0. -/
theorem c8_prefix_evaluation_witness :
    (evaluate_quiz
      [QuizQuestion.mcq "Q1" ["a", "b", "c", "d"] "a",
        QuizQuestion.fillBlank "Q2 _____" "x"] ["a"]).length = 1 ∧
    (evaluate_quiz
      [QuizQuestion.mcq "Q1" ["a", "b", "c", "d"] "a",
        QuizQuestion.fillBlank "Q2 _____" "x"] ["a"]).get? 0 =
      some (evaluate_one 0 (QuizQuestion.mcq "Q1" ["a", "b", "c", "d"] "a") "a") :=
  ⟨(c8_prefix_evaluation
      [QuizQuestion.mcq "Q1" ["a", "b", "c", "d"] "a",
        QuizQuestion.fillBlank "Q2 _____" "x"] ["a"]).1,
    (c8_prefix_evaluation
      [QuizQuestion.mcq "Q1" ["a", "b", "c", "d"] "a",
        QuizQuestion.fillBlank "Q2 _____" "x"] ["a"]).2 0
      (QuizQuestion.mcq "Q1" ["a", "b", "c", "d"] "a") "a" rfl rfl⟩

/-- C9: when the raw `question` field is a dict carrying a `description`
key, both `clean_question` pre-validators extract exactly the value
nested under that key as the question used for all subsequent
validation. -/
theorem c9_nested_description_extraction (es : PyEntries) (w : PyVal)
    (h : py_dict_get es "description" = some w) :
    MCQQuestion.clean_question (PyVal.dict es) = w ∧
    FillBlankQuestion.clean_question (PyVal.dict es) = w := by
  constructor
  · simp [MCQQuestion.clean_question, h]
  · simp [FillBlankQuestion.clean_question, h]

/-- Witness for C9: a concrete nested dict. -/
theorem c9_nested_description_extraction_witness :
    MCQQuestion.clean_question
      (PyVal.dict (PyEntries.cons "description" (PyVal.str "What is X?") PyEntries.nil)) =
      PyVal.str "What is X?" ∧
    FillBlankQuestion.clean_question
      (PyVal.dict (PyEntries.cons "description" (PyVal.str "What is X?") PyEntries.nil)) =
      PyVal.str "What is X?" :=
  c9_nested_description_extraction
    (PyEntries.cons "description" (PyVal.str "What is X?") PyEntries.nil)
    (PyVal.str "What is X?") rfl

/-- C10: `save_to_csv` ignores its `filename` parameter: two calls
differing only in that argument return the same value, and whenever a
file is produced its path is `results/quiz_results_<timestamp>.csv`,
derived solely from the timestamp. -/
theorem c10_filename_ignored (results : List ResultRecord) (f1 f2 ts : String)
    (write_ok : Bool) :
    save_to_csv results f1 ts write_ok = save_to_csv results f2 ts write_ok ∧
    ∀ p : String, save_to_csv results f1 ts write_ok = some p →
      p = "results/quiz_results_" ++ ts ++ ".csv" := by
  constructor
  · rfl
  · intro p hp
    unfold save_to_csv at hp
    split at hp
    · exact absurd hp (by simp)
    · split at hp
      next hw =>
        have hps : "results" ++ "/" ++ ("quiz_results_" ++ ts ++ ".csv") = p := by
          simpa using hp
        rw [← hps, ← string_append_assoc, ← string_append_assoc]
        rfl
      next hw => exact absurd hp (by simp)

/-- Witness for C10: concrete calls with two different filename
arguments produce the same timestamp-derived path. -/
theorem c10_filename_ignored_witness :
    save_to_csv [⟨1, "Q1", "MCQ", "a", "a", ["a", "b", "c", "d"], true⟩]
      "quiz_results.csv" "20250101_120000" true =
    save_to_csv [⟨1, "Q1", "MCQ", "a", "a", ["a", "b", "c", "d"], true⟩]
      "other_name.csv" "20250101_120000" true ∧
    ("results/quiz_results_20250101_120000.csv" : String) =
      "results/quiz_results_" ++ "20250101_120000" ++ ".csv" :=
  ⟨(c10_filename_ignored [⟨1, "Q1", "MCQ", "a", "a", ["a", "b", "c", "d"], true⟩]
      "quiz_results.csv" "other_name.csv" "20250101_120000" true).1,
    (c10_filename_ignored [⟨1, "Q1", "MCQ", "a", "a", ["a", "b", "c", "d"], true⟩]
      "quiz_results.csv" "other_name.csv" "20250101_120000" true).2
      "results/quiz_results_20250101_120000.csv" rfl⟩

end QuizGen
